import Mathlib

/-!
Verification development for `raiden_contracts/deploy/__main__.py`, the contract
deployment CLI of the raiden-contracts repository.

The script is a linear orchestration pipeline: build a client connection, verify
the account balance, then for each contract submit a deploy transaction, wait for
the mined receipt, extract the address, and feed it into the next contract's
constructor.  We embed it shallowly: the blockchain client (`web3`), the
`eth_utils` address helpers, the artifact store and the key management are
external collaborators, modelled as explicit environment records; the script's
own control flow is translated function by function.  Effects are made explicit:
every operation returns an `Except DeployError` result paired with the ordered
list of externally visible events it performed (transaction submissions,
receipt waits, checksum verifications).
-/

set_option autoImplicit false

namespace RaidenDeploy

/-! ### Constants

Modelled from the spec: `raiden_contracts/constants.py` is not part of the given
source; the contract-name constants are given by the spec ("EndpointRegistry,
SecretRegistry and TokenNetworkRegistry"; the token type name `CustomToken`
appears literally in `__main__.py`).  The settle-timeout values are not fixed by
the spec and no claim depends on them; concrete numbers are chosen only to keep
the development executable.
-/

def CONTRACT_ENDPOINT_REGISTRY : String := "EndpointRegistry"

def CONTRACT_SECRET_REGISTRY : String := "SecretRegistry"

def CONTRACT_TOKEN_NETWORK_REGISTRY : String := "TokenNetworkRegistry"

def CONTRACT_CUSTOM_TOKEN : String := "CustomToken"

/-- Modelled from the spec: minimum settle timeout constant from
`raiden_contracts.constants` (value not prescribed by the spec; no claim
depends on it). -/
def DEPLOY_SETTLE_TIMEOUT_MIN : Int := 500

/-- Modelled from the spec: maximum settle timeout constant from
`raiden_contracts.constants` (value not prescribed by the spec; no claim
depends on it). -/
def DEPLOY_SETTLE_TIMEOUT_MAX : Int := 555428

/-- The gwei denomination `denoms.gwei` from `eth_utils`: 10^9 wei. -/
def gwei : Nat := 1000000000

/-! ### Errors

Every failure of the script is fatal: a Python exception aborts the process with
a nonzero exit.  `assertionError` stands for a failed bare `assert`;
`insufficientFunds` is the `assert web3.eth.getBalance(owner) > 0` with its
dedicated message; `checksumMismatch` is the artifact verification failure
raised inside `ContractDeployer.__init__`; `transactionTimeout` is the missing
receipt after the wait window; `invalidAddress` is `click.BadParameter` from
`validate_address`; `valueError` is an uncaught `ValueError` from
`to_checksum_address` outside any try block.
-/

inductive DeployError where
  | insufficientFunds : DeployError
  | checksumMismatch : DeployError
  | transactionTimeout : DeployError
  | invalidAddress : DeployError
  | assertionError : DeployError
  | valueError : DeployError
  deriving DecidableEq, Repr

/-- A constructor or function-call argument as passed over the ABI boundary:
the script only ever passes integers and strings (addresses are strings). -/
inductive Arg where
  | i : Int → Arg
  | s : String → Arg
  deriving DecidableEq, Repr

/-- The transaction-parameter dictionary built in `ContractDeployer.__init__`:
`{'from': owner, 'gas_limit': gas_limit}` plus, only when the gas price is
nonzero, a `'gasPrice'` entry.  `gasPrice = none` models the absence of the
key. -/
structure Transaction where
  from_addr : String
  gas_limit : Nat
  gasPrice : Option Nat
  deriving DecidableEq, Repr

/-- A mined transaction receipt, as far as the script reads it. -/
structure Receipt where
  contractAddress : String
  gasUsed : Nat
  deriving DecidableEq, Repr

/-- Externally visible events of a run, in order. -/
inductive Event where
  | verifyChecksums : Event
  | transact : String → List Arg → Nat → Event
  | waitReceipt : Nat → Nat → Event
  | callTransact : String → String → List Arg → Nat → Event
  deriving DecidableEq, Repr

/-! ### External collaborators -/

/-- The blockchain client collaborator (`web3`).  `transact name args tx key`
submits a contract-creation transaction and returns its hash; `getReceipt h t`
is the receipt for transaction `h` if it is mined by the time of the poll at
second `t`; `callTransact addr fn args` submits a function-call transaction on a
deployed contract; `network_version` is `int(web3.version.network)`;
`getBalance` is `web3.eth.getBalance`. -/
structure Web3 where
  transact : String → List Arg → Transaction → String → Nat
  getReceipt : Nat → Nat → Option Receipt
  callTransact : String → String → List Arg → Nat
  network_version : Int
  getBalance : String → Nat

/-- The `eth_utils` address helpers (third-party collaborators).
`is_address` is a pure predicate (it never raises on strings);
`to_checksum_address` either returns the checksummed form or raises
`ValueError`, modelled as `Except Unit`; `is_checksum_address` recognises
well-formed checksummed addresses. -/
structure EthUtils where
  is_address : String → Bool
  to_checksum_address : String → Except Unit String
  is_checksum_address : String → Bool

/-- The remaining collaborators: key management (`raiden_libs`) and the
contract artifact store.  `checksums_ok` is the outcome of
`verify_precompiled_checksums`, modelled from the spec ("comparing
source-derived checksums against precompiled artifacts"); the verification
itself lives outside the given source. -/
structure Env where
  get_private_key : String → Option String
  private_key_to_address : String → String
  checksums_ok : Bool

/-! ### Receipt polling

Modelled from the spec: `check_succesful_tx` (from
`raiden_contracts.utils.utils`, not part of the given source) waits for the
transaction receipt, polling once per second for at most `wait` seconds, and
the run fails hard with `TransactionTimeout` when no receipt is observed within
the window ("wait for one transaction receipt and fail hard if absent"; "No
retry logic").
-/

def pollReceipt (get : Nat → Option Receipt) : Nat → Option Receipt
  | 0 => none
  | t + 1 =>
    match pollReceipt get t with
    | some r => some r
    | none => get t

def check_succesful_tx (w3 : Web3) (txhash : Nat) (wait : Nat) :
    Except DeployError Receipt :=
  match pollReceipt (w3.getReceipt txhash) wait with
  | some r => .ok r
  | none => .error .transactionTimeout

/-! ### DeploymentContext

The `deployed_contracts` dictionary: an insertion-ordered association list with
Python-dict update semantics (setting an existing key replaces its value in
place, a new key is appended).
-/

def dictSet : List (String × String) → String → String → List (String × String)
  | [], k, v => [(k, v)]
  | (k', v') :: rest, k, v =>
    if k' = k then (k, v) :: rest else (k', v') :: dictSet rest k v

def dictGet : List (String × String) → String → Option String
  | [], _ => none
  | (k', v') :: rest, k => if k' = k then some v' else dictGet rest k

/-- Python's `dict.update`: apply every entry of `e` to `d` in order. -/
def dictUpdate (d e : List (String × String)) : List (String × String) :=
  e.foldl (fun acc p => dictSet acc p.1 p.2) d

/-! ### validate_address -/

/-- The click callback `validate_address(ctx, param, value)`: a falsy value (absent flag or empty
string) passes through as `None`; otherwise `is_address(value)` is evaluated
and its result DISCARDED (as in the source), and the value is checksummed;
only a `ValueError` escaping `to_checksum_address` is turned into
`click.BadParameter`. -/
def validate_address (eth : EthUtils) (value : Option String) :
    Except DeployError (Option String) :=
  match value with
  | none => .ok none
  | some v =>
    if v = "" then .ok none
    else
      let _unused := eth.is_address v
      match eth.to_checksum_address v with
      | .ok c => .ok (some c)
      | .error _ => .error .invalidAddress

/-! ### ContractDeployer -/

structure ContractDeployer where
  private_key : String
  wait : Nat
  transaction : Transaction
  deriving Repr

/-- The transaction-parameter dictionary built at lines 56-59 of
`ContractDeployer.__init__`. -/
def mkTransaction (owner : String) (gas_limit : Nat) (gas_price : Nat) :
    Transaction :=
  { from_addr := owner
    gas_limit := gas_limit
    gasPrice := if gas_price ≠ 0 then some (gas_price * gwei) else none }

/-- Constructor `ContractDeployer.__init__`: derives the owner address from the private
key, builds the transaction parameters, then verifies the precompiled artifact
checksums exactly once; a mismatch raises and construction fails. -/
def mkContractDeployer (env : Env) (private_key : String) (gas_limit : Nat)
    (gas_price : Nat) (wait : Nat) :
    Except DeployError ContractDeployer × List Event :=
  let owner := env.private_key_to_address private_key
  let transaction := mkTransaction owner gas_limit gas_price
  if env.checksums_ok then
    (.ok { private_key := private_key, wait := wait, transaction := transaction },
      [.verifyChecksums])
  else
    (.error .checksumMismatch, [.verifyChecksums])

/-- Method `ContractDeployer.deploy(contract_name, args)`: submit the creation
transaction with the stored parameters and private key, then wait for the
receipt via `check_succesful_tx` (a single wait, no retry), returning the
deployed contract's address. -/
def ContractDeployer.deploy (d : ContractDeployer) (w3 : Web3)
    (contract_name : String) (args : List Arg) :
    Except DeployError String × List Event :=
  let txhash := w3.transact contract_name args d.transaction d.private_key
  let events := [Event.transact contract_name args txhash,
                 Event.waitReceipt txhash d.wait]
  match check_succesful_tx w3 txhash d.wait with
  | .ok receipt => (.ok receipt.contractAddress, events)
  | .error e => (.error e, events)

/-! ### Pipeline functions -/

/-- Function `deploy_raiden_contracts(deployer)`: deploy EndpointRegistry (no args),
then SecretRegistry (no args), then TokenNetworkRegistry with the
SecretRegistry address just obtained, the network id and the settle-timeout
bounds; return the name-to-address dictionary. -/
def deploy_raiden_contracts (d : ContractDeployer) (w3 : Web3) :
    Except DeployError (List (String × String)) × List Event :=
  match d.deploy w3 CONTRACT_ENDPOINT_REGISTRY [] with
  | (.error e, t1) => (.error e, t1)
  | (.ok a1, t1) =>
    let deployed1 := dictSet [] CONTRACT_ENDPOINT_REGISTRY a1
    match d.deploy w3 CONTRACT_SECRET_REGISTRY [] with
    | (.error e, t2) => (.error e, t1 ++ t2)
    | (.ok a2, t2) =>
      let deployed2 := dictSet deployed1 CONTRACT_SECRET_REGISTRY a2
      match d.deploy w3 CONTRACT_TOKEN_NETWORK_REGISTRY
          [.s a2, .i w3.network_version,
           .i DEPLOY_SETTLE_TIMEOUT_MIN, .i DEPLOY_SETTLE_TIMEOUT_MAX] with
      | (.error e, t3) => (.error e, t1 ++ t2 ++ t3)
      | (.ok a3, t3) =>
        (.ok (dictSet deployed2 CONTRACT_TOKEN_NETWORK_REGISTRY a3),
          t1 ++ t2 ++ t3)

/-- Function `deploy_token_contract(deployer, supply, decimals, name, symbol, type)`:
deploy the token with constructor arguments `[supply, decimals, name, symbol]`,
assert the returned address truthy and valid, and return the dictionary with
its checksummed form (`to_checksum_address` here is outside any try block, so a
`ValueError` would escape uncaught). -/
def deploy_token_contract (eth : EthUtils) (d : ContractDeployer) (w3 : Web3)
    (token_supply : Int) (token_decimals : Int)
    (token_name token_symbol token_type : String) :
    Except DeployError (List (String × String)) × List Event :=
  match d.deploy w3 token_type
      [.i token_supply, .i token_decimals, .s token_name, .s token_symbol] with
  | (.error e, t) => (.error e, t)
  | (.ok token_address, t) =>
    if token_address ≠ "" ∧ eth.is_address token_address then
      match eth.to_checksum_address token_address with
      | .ok caddr => (.ok [(token_type, caddr)], t)
      | .error _ => (.error .valueError, t)
    else
      (.error .assertionError, t)

/-- Function `register_token_network(...)`: submit the `createERC20TokenNetwork(token)`
call on the registry contract and wait for its receipt. -/
def register_token_network (w3 : Web3) (_private_key : String)
    (token_registry_address : String) (token_address : String) (wait : Nat) :
    Except DeployError Receipt × List Event :=
  let txhash := w3.callTransact token_registry_address
      "createERC20TokenNetwork" [.s token_address]
  let events := [Event.callTransact token_registry_address
      "createERC20TokenNetwork" [.s token_address] txhash,
      Event.waitReceipt txhash wait]
  match check_succesful_tx w3 txhash wait with
  | .ok receipt => (.ok receipt, events)
  | .error e => (.error e, events)

/-! ### CLI commands

`ctx.obj` as set up by `main`: the deployer, the accumulated
`deployed_contracts` dictionary, the token type name and the wait time.
-/

structure CtxObj where
  deployer : ContractDeployer
  deployed_contracts : List (String × String)
  token_type : String
  wait : Nat
  deriving Repr

/-- The body of `main` after CLI parsing: load the private key (bare assert on
`None`), check the account balance is positive (assert with the
insufficient-funds message), construct the `ContractDeployer` (which verifies
artifact checksums) and initialise `ctx.obj`. -/
def main_setup (env : Env) (w3 : Web3) (private_key_path : String)
    (wait : Nat) (gas_price : Nat) (gas_limit : Nat) :
    Except DeployError CtxObj × List Event :=
  match env.get_private_key private_key_path with
  | none => (.error .assertionError, [])
  | some private_key =>
    let owner := env.private_key_to_address private_key
    if w3.getBalance owner > 0 then
      match mkContractDeployer env private_key gas_limit gas_price wait with
      | (.ok deployer, t) =>
        (.ok { deployer := deployer, deployed_contracts := [],
               token_type := "CustomToken", wait := wait }, t)
      | (.error e, t) => (.error e, t)
    else
      (.error .insufficientFunds, [])

/-- The `raiden` subcommand: run `deploy_raiden_contracts` and merge the result
into the context's dictionary. -/
def raiden_command (w3 : Web3) (ctx : CtxObj) :
    Except DeployError CtxObj × List Event :=
  match deploy_raiden_contracts ctx.deployer w3 with
  | (.ok deployed, t) =>
    (.ok { ctx with
        deployed_contracts := dictUpdate ctx.deployed_contracts deployed }, t)
  | (.error e, t) => (.error e, t)

/-- The `token` subcommand: scale the supply by `10 ** token_decimals`, deploy
the token contract and merge the result into the context's dictionary. -/
def token_command (eth : EthUtils) (w3 : Web3) (ctx : CtxObj)
    (token_supply : Nat) (token_decimals : Nat)
    (token_name token_symbol : String) :
    Except DeployError CtxObj × List Event :=
  let supply : Int := (token_supply : Int) * (10 : Int) ^ token_decimals
  match deploy_token_contract eth ctx.deployer w3 supply
      (token_decimals : Int) token_name token_symbol ctx.token_type with
  | (.ok deployed, t) =>
    (.ok { ctx with
        deployed_contracts := dictUpdate ctx.deployed_contracts deployed }, t)
  | (.error e, t) => (.error e, t)

/-- Lines 241-244 of the `register` subcommand: an explicitly supplied flag
overwrites the corresponding dictionary entry; an omitted flag leaves the
dictionary alone. -/
def apply_register_flags (deployed : List (String × String))
    (token_type : String)
    (token_address registry_address : Option String) :
    List (String × String) :=
  let d1 := match token_address with
    | some a => dictSet deployed token_type a
    | none => deployed
  match registry_address with
  | some a => dictSet d1 CONTRACT_TOKEN_NETWORK_REGISTRY a
  | none => d1

/-- The `register` subcommand: apply the flags, assert both the registry and
the token addresses are present in the dictionary, then call
`register_token_network`. -/
def register_command (w3 : Web3) (ctx : CtxObj)
    (token_address registry_address : Option String) :
    Except DeployError CtxObj × List Event :=
  let deployed := apply_register_flags ctx.deployed_contracts ctx.token_type
      token_address registry_address
  match dictGet deployed CONTRACT_TOKEN_NETWORK_REGISTRY with
  | none => (.error .assertionError, [])
  | some registry =>
    match dictGet deployed ctx.token_type with
    | none => (.error .assertionError, [])
    | some token =>
      match register_token_network w3 ctx.deployer.private_key registry token
          ctx.wait with
      | (.ok _, t) => (.ok { ctx with deployed_contracts := deployed }, t)
      | (.error e, t) => (.error e, t)

/-! ### Event projections -/

/-- The sequence of contract-creation submissions in a trace: contract name and
constructor arguments, in order. -/
def deployCalls : List Event → List (String × List Arg)
  | [] => []
  | Event.transact n args _ :: rest => (n, args) :: deployCalls rest
  | _ :: rest => deployCalls rest

/-- Recognises a checksum-verification event. -/
def isVerifyEvent : Event → Bool
  | Event.verifyChecksums => true
  | _ => false

/-- Recognises a receipt-wait event. -/
def isWaitEvent : Event → Bool
  | Event.waitReceipt _ _ => true
  | _ => false

/-! ### Helper lemmas -/

theorem deploy_eq (d : ContractDeployer) (w3 : Web3) (n : String)
    (args : List Arg) :
    d.deploy w3 n args =
      ((match pollReceipt
            (w3.getReceipt (w3.transact n args d.transaction d.private_key))
            d.wait with
        | some r => .ok r.contractAddress
        | none => .error .transactionTimeout),
       [Event.transact n args (w3.transact n args d.transaction d.private_key),
        Event.waitReceipt (w3.transact n args d.transaction d.private_key)
          d.wait]) := by
  unfold ContractDeployer.deploy check_succesful_tx
  cases hp : pollReceipt
      (w3.getReceipt (w3.transact n args d.transaction d.private_key))
      d.wait <;>
    simp [hp]

theorem deploy_ok (d : ContractDeployer) (w3 : Web3) (n : String)
    (args : List Arg) (a : String) (tr : List Event)
    (h : d.deploy w3 n args = (.ok a, tr)) :
    (∃ r, pollReceipt
        (w3.getReceipt (w3.transact n args d.transaction d.private_key))
        d.wait = some r ∧ a = r.contractAddress) ∧
      tr = [Event.transact n args
              (w3.transact n args d.transaction d.private_key),
            Event.waitReceipt
              (w3.transact n args d.transaction d.private_key) d.wait] := by
  rw [deploy_eq] at h
  cases hp : pollReceipt
      (w3.getReceipt (w3.transact n args d.transaction d.private_key))
      d.wait with
  | none => rw [hp] at h; simp at h
  | some r =>
    rw [hp] at h
    simp only [Prod.mk.injEq, Except.ok.injEq] at h
    exact ⟨⟨r, rfl, h.1.symm⟩, h.2.symm⟩

theorem pollReceipt_some (get : Nat → Option Receipt) :
    ∀ w r, pollReceipt get w = some r → ∃ t, t < w ∧ get t = some r := by
  intro w
  induction w with
  | zero => intro r h; simp [pollReceipt] at h
  | succ t ih =>
    intro r h
    rw [pollReceipt] at h
    cases hp : pollReceipt get t with
    | some r' =>
      rw [hp] at h
      obtain ⟨u, hu, hg⟩ := ih r' hp
      cases h
      exact ⟨u, Nat.lt_succ_of_lt hu, hg⟩
    | none =>
      rw [hp] at h
      exact ⟨t, Nat.lt_succ_self t, h⟩

theorem dictGet_dictSet_self (d : List (String × String)) (k v : String) :
    dictGet (dictSet d k v) k = some v := by
  induction d with
  | nil => simp [dictSet, dictGet]
  | cons p rest ih =>
    by_cases hk : p.1 = k
    · simp [dictSet, dictGet, hk]
    · simp [dictSet, dictGet, hk, ih]

theorem dictGet_dictSet_ne (d : List (String × String)) (k v k' : String)
    (h : k' ≠ k) : dictGet (dictSet d k v) k' = dictGet d k' := by
  induction d with
  | nil => simp [dictSet, dictGet, Ne.symm h]
  | cons p rest ih =>
    by_cases hk : p.1 = k
    · simp [dictSet, dictGet, hk, Ne.symm h]
    · simp [dictSet, dictGet, hk, ih]

theorem raiden_dict_build (a1 a2 a3 : String) :
    dictSet (dictSet (dictSet [] CONTRACT_ENDPOINT_REGISTRY a1)
        CONTRACT_SECRET_REGISTRY a2) CONTRACT_TOKEN_NETWORK_REGISTRY a3 =
      [(CONTRACT_ENDPOINT_REGISTRY, a1), (CONTRACT_SECRET_REGISTRY, a2),
       (CONTRACT_TOKEN_NETWORK_REGISTRY, a3)] := by
  simp [dictSet, CONTRACT_ENDPOINT_REGISTRY, CONTRACT_SECRET_REGISTRY,
    CONTRACT_TOKEN_NETWORK_REGISTRY]

theorem deploy_raiden_contracts_ok (d : ContractDeployer) (w3 : Web3)
    (dc : List (String × String)) (tr : List Event)
    (h : deploy_raiden_contracts d w3 = (.ok dc, tr)) :
    ∃ a1 a2 a3,
      dc = [(CONTRACT_ENDPOINT_REGISTRY, a1), (CONTRACT_SECRET_REGISTRY, a2),
            (CONTRACT_TOKEN_NETWORK_REGISTRY, a3)] ∧
      (∃ t r, w3.getReceipt
          (w3.transact CONTRACT_ENDPOINT_REGISTRY [] d.transaction
            d.private_key) t = some r ∧ a1 = r.contractAddress) ∧
      (∃ t r, w3.getReceipt
          (w3.transact CONTRACT_SECRET_REGISTRY [] d.transaction
            d.private_key) t = some r ∧ a2 = r.contractAddress) ∧
      (∃ t r, w3.getReceipt
          (w3.transact CONTRACT_TOKEN_NETWORK_REGISTRY
            [.s a2, .i w3.network_version, .i DEPLOY_SETTLE_TIMEOUT_MIN,
             .i DEPLOY_SETTLE_TIMEOUT_MAX] d.transaction
            d.private_key) t = some r ∧ a3 = r.contractAddress) ∧
      deployCalls tr =
        [(CONTRACT_ENDPOINT_REGISTRY, []), (CONTRACT_SECRET_REGISTRY, []),
         (CONTRACT_TOKEN_NETWORK_REGISTRY,
          [.s a2, .i w3.network_version, .i DEPLOY_SETTLE_TIMEOUT_MIN,
           .i DEPLOY_SETTLE_TIMEOUT_MAX])] := by
  unfold deploy_raiden_contracts at h
  split at h
  · simp at h
  rename_i a1 t1 h1
  split at h
  · simp at h
  rename_i a2 t2 h2
  split at h
  · simp at h
  rename_i a3 t3 h3
  simp only [Prod.mk.injEq, Except.ok.injEq] at h
  obtain ⟨hdc, htr⟩ := h
  obtain ⟨⟨rr1, hp1, ha1⟩, ht1⟩ := deploy_ok _ _ _ _ _ _ h1
  obtain ⟨⟨rr2, hp2, ha2⟩, ht2⟩ := deploy_ok _ _ _ _ _ _ h2
  obtain ⟨⟨rr3, hp3, ha3⟩, ht3⟩ := deploy_ok _ _ _ _ _ _ h3
  obtain ⟨u1, _, hg1⟩ := pollReceipt_some _ _ _ hp1
  obtain ⟨u2, _, hg2⟩ := pollReceipt_some _ _ _ hp2
  obtain ⟨u3, _, hg3⟩ := pollReceipt_some _ _ _ hp3
  refine ⟨a1, a2, a3, ?_, ⟨u1, rr1, hg1, ha1⟩, ⟨u2, rr2, hg2, ha2⟩,
    ⟨u3, rr3, hg3, ha3⟩, ?_⟩
  · rw [← hdc, raiden_dict_build]
  · rw [← htr, ht1, ht2, ht3]
    rfl

theorem deploy_token_contract_ok (eth : EthUtils) (d : ContractDeployer)
    (w3 : Web3) (sup dec : Int) (n sym tt : String)
    (dcr : List (String × String)) (tr : List Event)
    (h : deploy_token_contract eth d w3 sup dec n sym tt = (.ok dcr, tr)) :
    ∃ a c, dcr = [(tt, c)] ∧ eth.to_checksum_address a = .ok c ∧
      eth.is_address a = true := by
  unfold deploy_token_contract at h
  split at h
  · simp at h
  rename_i addr t1 h1
  split at h
  rename_i hc
  · split at h
    rename_i c h2
    · simp only [Prod.mk.injEq, Except.ok.injEq] at h
      exact ⟨addr, c, h.1.symm, h2, hc.2⟩
    · simp at h
  · simp at h

theorem dictUpdate_nil_three (a1 a2 a3 : String) :
    dictUpdate []
        [(CONTRACT_ENDPOINT_REGISTRY, a1), (CONTRACT_SECRET_REGISTRY, a2),
         (CONTRACT_TOKEN_NETWORK_REGISTRY, a3)] =
      [(CONTRACT_ENDPOINT_REGISTRY, a1), (CONTRACT_SECRET_REGISTRY, a2),
       (CONTRACT_TOKEN_NETWORK_REGISTRY, a3)] := by
  show dictSet (dictSet (dictSet [] CONTRACT_ENDPOINT_REGISTRY a1)
      CONTRACT_SECRET_REGISTRY a2) CONTRACT_TOKEN_NETWORK_REGISTRY a3 = _
  exact raiden_dict_build a1 a2 a3

/-! ### Concrete collaborator instances

Small executable instances of the collaborator records, used to evaluate the
embedded program on closed inputs.
-/

def ethTest : EthUtils :=
  { is_address := fun _ => true
    to_checksum_address := fun s => .ok s
    is_checksum_address := fun _ => true }

def envTest : Env :=
  { get_private_key := fun _ => some "k"
    private_key_to_address := fun _ => "owner"
    checksums_ok := true }

def w3Test : Web3 :=
  { transact := fun n args _ _ => n.length + args.length
    getReceipt := fun h _ => some { contractAddress := "a" ++ toString h, gasUsed := 0 }
    callTransact := fun _ _ _ => 42
    network_version := 3
    getBalance := fun _ => 1 }

/-- A client that never returns a receipt. -/
def w3NoReceipt : Web3 :=
  { transact := fun n args _ _ => n.length + args.length
    getReceipt := fun _ _ => none
    callTransact := fun _ _ _ => 42
    network_version := 3
    getBalance := fun _ => 1 }

def deployerTest : ContractDeployer :=
  { private_key := "k", wait := 1, transaction := mkTransaction "owner" 100 5 }

/-- A deployer configured with a wait of 0. -/
def deployerWait0 : ContractDeployer :=
  { private_key := "k", wait := 0, transaction := mkTransaction "owner" 100 5 }

def ctxTest : CtxObj :=
  { deployer := deployerTest, deployed_contracts := [],
    token_type := "CustomToken", wait := 1 }

/-! ### Claims -/

/-- C1: For every successful run of the `raiden` or `token` subcommand started
from the fresh context set up by `main` (empty `deployed_contracts`), the
resulting deployment context contains exactly the contract names that
subcommand deploys — EndpointRegistry, SecretRegistry and TokenNetworkRegistry
for `raiden`; the token type name for `token` — each mapped to a well-formed
checksummed address.  Each subcommand's runs are quantified separately, each
conjunct assuming only the collaborator guarantee that subcommand relies on:
receipts carry checksummed contract addresses for `raiden`, and
`to_checksum_address` produces checksummed output for `token`. -/
theorem C1_context_exact_and_checksummed (eth : EthUtils) (w3 : Web3) :
    (∀ ctx ctx' tr,
      (∀ h t r, w3.getReceipt h t = some r →
        eth.is_checksum_address r.contractAddress = true) →
      ctx.deployed_contracts = [] →
      raiden_command w3 ctx = (.ok ctx', tr) →
      ctx'.deployed_contracts.map Prod.fst =
        [CONTRACT_ENDPOINT_REGISTRY, CONTRACT_SECRET_REGISTRY,
         CONTRACT_TOKEN_NETWORK_REGISTRY] ∧
      ∀ p ∈ ctx'.deployed_contracts, eth.is_checksum_address p.2 = true) ∧
    (∀ ctx ctx' tr s d n sym,
      (∀ a c, eth.to_checksum_address a = .ok c →
        eth.is_checksum_address c = true) →
      ctx.deployed_contracts = [] →
      token_command eth w3 ctx s d n sym = (.ok ctx', tr) →
      ctx'.deployed_contracts.map Prod.fst = [ctx.token_type] ∧
      ∀ p ∈ ctx'.deployed_contracts, eth.is_checksum_address p.2 = true) := by
  constructor
  · intro ctxr ctxr' trr hrec hr0 hr
    unfold raiden_command at hr
    split at hr
    · rename_i dcr trr0 hdr
      simp only [Prod.mk.injEq, Except.ok.injEq] at hr
      obtain ⟨a1, a2, a3, hdc, ⟨t1, r1, hg1, ha1⟩, ⟨t2, r2, hg2, ha2⟩,
        ⟨t3, r3, hg3, ha3⟩, _⟩ := deploy_raiden_contracts_ok _ _ _ _ hdr
      have hctx : ctxr'.deployed_contracts =
          [(CONTRACT_ENDPOINT_REGISTRY, a1), (CONTRACT_SECRET_REGISTRY, a2),
           (CONTRACT_TOKEN_NETWORK_REGISTRY, a3)] := by
        rw [← hr.1, hdc, hr0, dictUpdate_nil_three]
      rw [hctx]
      refine ⟨by simp, ?_⟩
      intro p hp
      simp only [List.mem_cons, List.mem_singleton] at hp
      rcases hp with h | h | h | h
      · rw [h]; exact ha1 ▸ hrec _ _ _ hg1
      · rw [h]; exact ha2 ▸ hrec _ _ _ hg2
      · rw [h]; exact ha3 ▸ hrec _ _ _ hg3
      · cases h
    · simp at hr
  · intro ctxt ctxt' trt s d n sym hchk ht0 ht
    unfold token_command at ht
    dsimp only at ht
    split at ht
    · rename_i dct trt0 hdt
      simp only [Prod.mk.injEq, Except.ok.injEq] at ht
      obtain ⟨a, c, hdc, hcs, _⟩ := deploy_token_contract_ok _ _ _ _ _ _ _ _ _ _ hdt
      have hctx : ctxt'.deployed_contracts = [(ctxt.token_type, c)] := by
        rw [← ht.1, hdc, ht0]; rfl
      rw [hctx]
      refine ⟨by simp, ?_⟩
      intro p hp
      simp only [List.mem_singleton] at hp
      rw [hp]
      exact hchk _ _ hcs
    · simp at ht

/-- The context produced by the concrete raiden run of `w3Test`. -/
def ctxRaidenResult : CtxObj :=
  { deployer := deployerTest
    deployed_contracts :=
      [("EndpointRegistry", "a16"), ("SecretRegistry", "a14"),
       ("TokenNetworkRegistry", "a24")]
    token_type := "CustomToken"
    wait := 1 }

/-- The context produced by the concrete token run of `w3Test`. -/
def ctxTokenResult : CtxObj :=
  { deployer := deployerTest
    deployed_contracts := [("CustomToken", "a15")]
    token_type := "CustomToken"
    wait := 1 }

/-- Witness for C1: a concrete client and fresh context on which both
subcommands succeed, with the hypotheses discharged by evaluation. -/
theorem C1_witness :
    (∀ h t r, w3Test.getReceipt h t = some r →
      ethTest.is_checksum_address r.contractAddress = true) ∧
    (∀ a c, ethTest.to_checksum_address a = .ok c →
      ethTest.is_checksum_address c = true) ∧
    ctxTest.deployed_contracts = [] ∧
    raiden_command w3Test ctxTest =
      (.ok ctxRaidenResult,
       [Event.transact "EndpointRegistry" [] 16, Event.waitReceipt 16 1,
        Event.transact "SecretRegistry" [] 14, Event.waitReceipt 14 1,
        Event.transact "TokenNetworkRegistry"
          [.s "a14", .i 3, .i 500, .i 555428] 24,
        Event.waitReceipt 24 1]) ∧
    token_command ethTest w3Test ctxTest 10000000 18 "CustomToken" "TKN" =
      (.ok ctxTokenResult,
       [Event.transact "CustomToken"
          [.i 10000000000000000000000000, .i 18, .s "CustomToken", .s "TKN"] 15,
        Event.waitReceipt 15 1]) ∧
    (ctxRaidenResult.deployed_contracts.map Prod.fst =
        [CONTRACT_ENDPOINT_REGISTRY, CONTRACT_SECRET_REGISTRY,
         CONTRACT_TOKEN_NETWORK_REGISTRY] ∧
      ∀ p ∈ ctxRaidenResult.deployed_contracts,
        ethTest.is_checksum_address p.2 = true) ∧
    (ctxTokenResult.deployed_contracts.map Prod.fst = [ctxTest.token_type] ∧
      ∀ p ∈ ctxTokenResult.deployed_contracts,
        ethTest.is_checksum_address p.2 = true) :=
  ⟨fun _ _ _ _ => rfl, fun _ _ _ => rfl, rfl, rfl, rfl,
    (C1_context_exact_and_checksummed ethTest w3Test).1 ctxTest
      ctxRaidenResult _ (fun _ _ _ _ => rfl) rfl rfl,
    (C1_context_exact_and_checksummed ethTest w3Test).2 ctxTest
      ctxTokenResult _ 10000000 18 "CustomToken" "TKN"
      (fun _ _ _ => rfl) rfl rfl⟩

/-- C2: In every successful run of the raiden pipeline the deployment order is
endpoint-registry with no constructor arguments, then secret-registry with no
constructor arguments, then token-network-registry whose constructor arguments
are exactly the address returned by the immediately preceding secret-registry
deployment (the one stored under SecretRegistry in the result), the network
id, the minimum settle timeout and the maximum settle timeout, in that
order. -/
theorem C2_raiden_deploy_order (d : ContractDeployer) (w3 : Web3)
    (dc : List (String × String)) (tr : List Event)
    (h : deploy_raiden_contracts d w3 = (.ok dc, tr)) :
    ∃ a2, dictGet dc CONTRACT_SECRET_REGISTRY = some a2 ∧
      deployCalls tr =
        [(CONTRACT_ENDPOINT_REGISTRY, []), (CONTRACT_SECRET_REGISTRY, []),
         (CONTRACT_TOKEN_NETWORK_REGISTRY,
          [.s a2, .i w3.network_version, .i DEPLOY_SETTLE_TIMEOUT_MIN,
           .i DEPLOY_SETTLE_TIMEOUT_MAX])] := by
  obtain ⟨a1, a2, a3, hdc, _, _, _, hcalls⟩ :=
    deploy_raiden_contracts_ok d w3 dc tr h
  refine ⟨a2, ?_, hcalls⟩
  rw [hdc]
  simp [dictGet, CONTRACT_ENDPOINT_REGISTRY, CONTRACT_SECRET_REGISTRY]

/-- Witness for C2: the concrete raiden run of `C1_witness`'s client. -/
theorem C2_witness :
    (deploy_raiden_contracts deployerTest w3Test =
      (.ok [("EndpointRegistry", "a16"), ("SecretRegistry", "a14"),
            ("TokenNetworkRegistry", "a24")],
       [Event.transact "EndpointRegistry" [] 16, Event.waitReceipt 16 1,
        Event.transact "SecretRegistry" [] 14, Event.waitReceipt 14 1,
        Event.transact "TokenNetworkRegistry"
          [.s "a14", .i 3, .i 500, .i 555428] 24,
        Event.waitReceipt 24 1])) ∧
    (∃ a2, dictGet [("EndpointRegistry", "a16"), ("SecretRegistry", "a14"),
          ("TokenNetworkRegistry", "a24")] CONTRACT_SECRET_REGISTRY = some a2 ∧
      deployCalls
          [Event.transact "EndpointRegistry" [] 16, Event.waitReceipt 16 1,
           Event.transact "SecretRegistry" [] 14, Event.waitReceipt 14 1,
           Event.transact "TokenNetworkRegistry"
             [.s "a14", .i 3, .i 500, .i 555428] 24,
           Event.waitReceipt 24 1] =
        [(CONTRACT_ENDPOINT_REGISTRY, []), (CONTRACT_SECRET_REGISTRY, []),
         (CONTRACT_TOKEN_NETWORK_REGISTRY,
          [.s a2, .i w3Test.network_version, .i DEPLOY_SETTLE_TIMEOUT_MIN,
           .i DEPLOY_SETTLE_TIMEOUT_MAX])]) :=
  ⟨rfl, C2_raiden_deploy_order deployerTest w3Test _ _ rfl⟩

/-- C3: `deploy` fails with the fatal `transactionTimeout` exactly when the
submitted transaction is not mined within the configured wait window, and it
performs exactly one receipt wait per call — a timed-out wait is never
retried.  The artifact checksum verification is performed exactly once, at
`ContractDeployer` construction: a checksum mismatch makes construction fail
(so no deployer exists and every subsequent deploy is impossible), and
`deploy` itself never performs the verification nor reports a checksum
mismatch. -/
theorem C3_deploy_failure_modes :
    (∀ env pk gl gp w,
      (mkContractDeployer env pk gl gp w).2.countP isVerifyEvent = 1 ∧
      ((mkContractDeployer env pk gl gp w).1 = .error .checksumMismatch ↔
        env.checksums_ok = false)) ∧
    (∀ (d : ContractDeployer) (w3 : Web3) (n : String) (args : List Arg),
      ((d.deploy w3 n args).1 = .error .transactionTimeout ↔
        pollReceipt
          (w3.getReceipt (w3.transact n args d.transaction d.private_key))
          d.wait = none) ∧
      (d.deploy w3 n args).2.countP isVerifyEvent = 0 ∧
      (d.deploy w3 n args).2.countP isWaitEvent = 1 ∧
      (d.deploy w3 n args).1 ≠ .error .checksumMismatch) := by
  constructor
  · intro env pk gl gp w
    unfold mkContractDeployer
    cases hc : env.checksums_ok <;>
      simp [hc, List.countP_cons, List.countP_nil, isVerifyEvent]
  · intro d w3 n args
    rw [deploy_eq]
    cases hp : pollReceipt
        (w3.getReceipt (w3.transact n args d.transaction d.private_key))
        d.wait <;>
      simp [hp, List.countP_cons, List.countP_nil, isVerifyEvent, isWaitEvent]

theorem deploy_token_contract_snd (eth : EthUtils) (d : ContractDeployer)
    (w3 : Web3) (sup dec : Int) (n sym tt : String) :
    (deploy_token_contract eth d w3 sup dec n sym tt).2 =
      (d.deploy w3 tt [.i sup, .i dec, .s n, .s sym]).2 := by
  unfold deploy_token_contract
  cases hd : d.deploy w3 tt [.i sup, .i dec, .s n, .s sym] with
  | mk r t =>
  cases r with
  | error e => rfl
  | ok a =>
    dsimp only
    split
    · split <;> rfl
    · rfl

theorem token_command_snd (eth : EthUtils) (w3 : Web3) (ctx : CtxObj)
    (s d : Nat) (n sym : String) :
    (token_command eth w3 ctx s d n sym).2 =
      (ctx.deployer.deploy w3 ctx.token_type
        [.i ((s : Int) * 10 ^ d), .i (d : Int), .s n, .s sym]).2 := by
  unfold token_command
  dsimp only
  rw [← deploy_token_contract_snd eth ctx.deployer w3 ((s : Int) * 10 ^ d)
    (d : Int) n sym ctx.token_type]
  cases hd : deploy_token_contract eth ctx.deployer w3 ((s : Int) * 10 ^ d)
      (d : Int) n sym ctx.token_type with
  | mk r t => cases r <;> rfl

/-- C4: Every invocation of the `token` subcommand with supply `s` and
decimals `d` submits exactly one contract-creation transaction, whose supply
constructor argument is `s * 10 ^ d` (followed by the decimals, name and
symbol); in particular supply 10000000 with decimals 18 yields the
constructor argument 10000000 * 10 ^ 18 = 10^25. -/
theorem C4_token_supply_scaling (eth : EthUtils) (w3 : Web3) (ctx : CtxObj)
    (s d : Nat) (n sym : String) :
    deployCalls (token_command eth w3 ctx s d n sym).2 =
      [(ctx.token_type,
        [.i ((s : Int) * 10 ^ d), .i (d : Int), .s n, .s sym])] ∧
    deployCalls
        (token_command ethTest w3Test ctxTest 10000000 18 "CustomToken"
          "TKN").2 =
      [("CustomToken",
        [.i 10000000000000000000000000, .i 18, .s "CustomToken",
         .s "TKN"])] := by
  constructor
  · rw [token_command_snd, deploy_eq]
    rfl
  · rfl

theorem register_token_network_no_assert (w3 : Web3) (pk reg tok : String)
    (wait : Nat) :
    (register_token_network w3 pk reg tok wait).1 ≠
      .error .assertionError := by
  unfold register_token_network check_succesful_tx
  cases hp : pollReceipt
      (w3.getReceipt (w3.callTransact reg "createERC20TokenNetwork" [.s tok]))
      wait <;>
    simp [hp]

/-- C5: The `register` subcommand fails with an assertion error exactly when,
after applying the `--token-address` and `--registry-address` flags to the
context, the context lacks the token-network-registry address or the token
address (under the token type name); when both are present it proceeds to the
registration transaction (its trace is exactly the trace of
`register_token_network` on the two resolved addresses). -/
theorem C5_register_assert_iff (w3 : Web3) (ctx : CtxObj)
    (ta ra : Option String) :
    ((register_command w3 ctx ta ra).1 = .error .assertionError ↔
      (dictGet (apply_register_flags ctx.deployed_contracts ctx.token_type
          ta ra) CONTRACT_TOKEN_NETWORK_REGISTRY = none ∨
        dictGet (apply_register_flags ctx.deployed_contracts ctx.token_type
          ta ra) ctx.token_type = none)) ∧
    ((register_command w3 ctx ta ra).2 =
      match dictGet (apply_register_flags ctx.deployed_contracts
          ctx.token_type ta ra) CONTRACT_TOKEN_NETWORK_REGISTRY,
        dictGet (apply_register_flags ctx.deployed_contracts ctx.token_type
          ta ra) ctx.token_type with
      | some registry, some token =>
        (register_token_network w3 ctx.deployer.private_key registry token
          ctx.wait).2
      | _, _ => []) := by
  unfold register_command
  dsimp only
  cases hg1 : dictGet (apply_register_flags ctx.deployed_contracts
      ctx.token_type ta ra) CONTRACT_TOKEN_NETWORK_REGISTRY with
  | none => simp
  | some registry =>
    cases hg2 : dictGet (apply_register_flags ctx.deployed_contracts
        ctx.token_type ta ra) ctx.token_type with
    | none => simp
    | some token =>
      cases hr : register_token_network w3 ctx.deployer.private_key registry
          token ctx.wait with
      | mk r t =>
      have hne := register_token_network_no_assert w3
        ctx.deployer.private_key registry token ctx.wait
      rw [hr] at hne
      cases r with
      | ok v => simp [hr]
      | error e =>
        simp only [ne_eq, Except.error.injEq] at hne
        simp [hr, hne]

theorem mkContractDeployer_no_funds_error (env : Env) (pk : String)
    (gl gp w : Nat) :
    (mkContractDeployer env pk gl gp w).1 ≠ .error .insufficientFunds := by
  unfold mkContractDeployer
  cases hc : env.checksums_ok <;> simp [hc]

/-- C6: Before any deployment step runs, `main` checks the deploying
account's balance and aborts fatally with the insufficient-funds assertion
exactly when the balance is zero (given the private key was loaded); with any
positive balance the check passes, and when it aborts no event — no
transaction submission, no checksum verification — has occurred. -/
theorem C6_balance_check (env : Env) (w3 : Web3) (path : String)
    (wait gp gl : Nat) (key : String)
    (hkey : env.get_private_key path = some key) :
    ((main_setup env w3 path wait gp gl).1 = .error .insufficientFunds ↔
      w3.getBalance (env.private_key_to_address key) = 0) ∧
    (w3.getBalance (env.private_key_to_address key) = 0 →
      (main_setup env w3 path wait gp gl).2 = []) := by
  unfold main_setup
  rw [hkey]
  dsimp only
  by_cases hb : w3.getBalance (env.private_key_to_address key) > 0
  · rw [if_pos hb]
    have hb' : w3.getBalance (env.private_key_to_address key) ≠ 0 :=
      Nat.pos_iff_ne_zero.mp hb
    have hne := mkContractDeployer_no_funds_error env key gl gp wait
    cases hm : mkContractDeployer env key gl gp wait with
    | mk r t =>
    rw [hm] at hne
    cases r with
    | ok dep => simp [hm, hb']
    | error e =>
      simp only [ne_eq, Except.error.injEq] at hne
      simp [hm, hb', hne]
  · rw [if_neg hb]
    have hb0 : w3.getBalance (env.private_key_to_address key) = 0 :=
      Nat.eq_zero_of_not_pos hb
    simp [hb0]

/-- Witness for C6 at the concrete environment (positive balance). -/
theorem C6_witness :
    envTest.get_private_key "p" = some "k" ∧
    (((main_setup envTest w3Test "p" 1 5 100).1 =
        .error .insufficientFunds ↔
      w3Test.getBalance (envTest.private_key_to_address "k") = 0) ∧
     (w3Test.getBalance (envTest.private_key_to_address "k") = 0 →
       (main_setup envTest w3Test "p" 1 5 100).2 = [])) :=
  ⟨rfl, C6_balance_check envTest w3Test "p" 1 5 100 "k" rfl⟩

/-- C7: For a deployer configured with wait 0 and a client that never returns
a transaction receipt, every call to `deploy` fails with
`transactionTimeout`.  Termination in bounded time is inherent in the model:
`deploy` is a total function whose receipt wait polls at most `wait` times,
and zero times when `wait = 0`. -/
theorem C7_wait_zero_timeout (d : ContractDeployer) (w3 : Web3)
    (hw : d.wait = 0)
    (hnone : ∀ h t, w3.getReceipt h t = none)
    (n : String) (args : List Arg) :
    (d.deploy w3 n args).1 = .error .transactionTimeout := by
  rw [deploy_eq, hw]
  rfl

/-- Witness for C7: concrete wait-0 deployer against the receipt-less
client. -/
theorem C7_witness :
    deployerWait0.wait = 0 ∧
    (∀ h t, w3NoReceipt.getReceipt h t = none) ∧
    (deployerWait0.deploy w3NoReceipt "EndpointRegistry" []).1 =
      .error .transactionTimeout :=
  ⟨rfl, fun _ _ => rfl,
    C7_wait_zero_timeout deployerWait0 w3NoReceipt rfl (fun _ _ => rfl)
      "EndpointRegistry" []⟩

/-! ### The validate_address flaw (C8)

`validate_address` computes `is_address(value)` but discards the result; only
a `ValueError` escaping `to_checksum_address` triggers `BadParameter`.  In
`eth_utils`, `is_address` rejects a mixed-case hex address whose EIP-55
checksum is incorrect, while `to_checksum_address` lowercases its input before
re-checksumming and therefore accepts exactly such an address.  So there are
malformed (invalid, non-empty) inputs that `validate_address` accepts.
-/

/-- The EIP-55 example address in its correct checksummed form. -/
def checksummedAddr : String := "0x5aAeb6053F3E94C9b9A09f33669435E7Ef1BeAed"

/-- The same address with the case of its first two hex letters swapped: a
mixed-case hex address whose EIP-55 checksum is wrong, hence not a valid
address. -/
def badChecksumAddr : String := "0x5Aaeb6053F3E94C9b9A09f33669435E7Ef1BeAed"

def isHexDigitChar (c : Char) : Bool :=
  c.isDigit || ['a', 'b', 'c', 'd', 'e', 'f', 'A', 'B', 'C', 'D', 'E',
    'F'].contains c

def is_hex_address (v : String) : Bool :=
  match v.data with
  | '0' :: 'x' :: rest => rest.length == 40 && rest.all isHexDigitChar
  | _ => false

def isMixedCase (s : List Char) : Bool :=
  s.any Char.isLower && s.any Char.isUpper

def lowerStr (v : String) : String := ⟨v.data.map Char.toLower⟩

/-- Modelled from the spec: the behaviour of the third-party `eth_utils`
helpers in the neighbourhood of the EIP-55 example address
`0x5aAeb6053F3E94C9b9A09f33669435E7Ef1BeAed`.  `is_address` accepts hex
addresses, but a mixed-case one only when it equals its EIP-55 checksummed
form; `to_checksum_address` lowercases its input before re-checksumming and
so succeeds on this address in any casing, returning the correctly
checksummed form; inputs outside this address family raise `ValueError`
here, which is all the theorem below needs. -/
def ethEIP55 : EthUtils :=
  { is_address := fun v =>
      is_hex_address v &&
        (!(isMixedCase (v.data.drop 2)) || decide (v = checksummedAddr))
    to_checksum_address := fun v =>
      if is_hex_address v ∧ lowerStr v = lowerStr checksummedAddr then
        .ok checksummedAddr
      else .error ()
    is_checksum_address := fun v => decide (v = checksummedAddr) }

/-- C8: the claim is FALSE on the code: the result of the `is_address` check
inside `validate_address` is discarded, so it cannot influence the outcome at
all (first conjunct: the function is invariant under replacing `is_address`);
on the concrete malformed input `badChecksumAddr` — non-empty, rejected by
`is_address` (third conjunct) — `validate_address` returns the
re-checksummed address instead of raising `BadParameter` (second
conjunct). -/
theorem C8_is_address_result_ignored :
    (∀ (eth : EthUtils) (f : String → Bool) (v : Option String),
      validate_address { eth with is_address := f } v =
        validate_address eth v) ∧
    validate_address ethEIP55 (some badChecksumAddr) =
      .ok (some checksummedAddr) ∧
    ethEIP55.is_address badChecksumAddr = false := by
  refine ⟨fun eth f v => ?_, by rfl, by rfl⟩
  cases v with
  | none => rfl
  | some s => rfl

/-- C9: For every successful `ContractDeployer` construction the transaction
parameters contain no `gasPrice` field when `gas_price` is 0, contain
`gasPrice = gas_price * 10^9` (the gwei conversion) when it is nonzero, and
always carry the owner address under `from` and the gas limit under
`gas_limit`. -/
theorem C9_transaction_parameters (env : Env) (pk : String) (gl gp w : Nat)
    (d : ContractDeployer) (tr : List Event)
    (h : mkContractDeployer env pk gl gp w = (.ok d, tr)) :
    d.transaction.from_addr = env.private_key_to_address pk ∧
    d.transaction.gas_limit = gl ∧
    (gp = 0 → d.transaction.gasPrice = none) ∧
    (gp ≠ 0 → d.transaction.gasPrice = some (gp * 1000000000)) := by
  unfold mkContractDeployer at h
  split at h
  · simp only [Prod.mk.injEq, Except.ok.injEq] at h
    rw [← h.1]
    unfold mkTransaction gwei
    by_cases hgp : gp = 0
    · simp [hgp]
    · simp [hgp]
  · simp at h

/-- Witness for C9: the concrete construction with gas price 5. -/
theorem C9_witness :
    mkContractDeployer envTest "k" 100 5 1 =
      (.ok deployerTest, [Event.verifyChecksums]) ∧
    (deployerTest.transaction.from_addr =
        envTest.private_key_to_address "k" ∧
      deployerTest.transaction.gas_limit = 100 ∧
      ((5 : Nat) = 0 → deployerTest.transaction.gasPrice = none) ∧
      ((5 : Nat) ≠ 0 → deployerTest.transaction.gasPrice =
        some (5 * 1000000000))) :=
  ⟨rfl, C9_transaction_parameters envTest "k" 100 5 1 deployerTest
    [Event.verifyChecksums] rfl⟩

/-- C10: In the `register` subcommand an explicitly supplied flag overwrites
the context entry under its name — the token flag under the token type name,
the registry flag under TokenNetworkRegistry — while an omitted flag leaves
the context entry unchanged (omitting both leaves the whole context
untouched), and on a successful run the resulting context is exactly the
flag-updated dictionary. -/
theorem C10_register_flag_precedence (dc : List (String × String))
    (tt a b : String) (ta ra : Option String) (w3 : Web3)
    (ctx ctx' : CtxObj) (tr : List Event)
    (htt : tt ≠ CONTRACT_TOKEN_NETWORK_REGISTRY)
    (hrun : register_command w3 ctx ta ra = (.ok ctx', tr)) :
    dictGet (apply_register_flags dc tt (some a) ra) tt = some a ∧
    dictGet (apply_register_flags dc tt ta (some b))
      CONTRACT_TOKEN_NETWORK_REGISTRY = some b ∧
    apply_register_flags dc tt none none = dc ∧
    dictGet (apply_register_flags dc tt none ra) tt = dictGet dc tt ∧
    dictGet (apply_register_flags dc tt ta none)
        CONTRACT_TOKEN_NETWORK_REGISTRY =
      dictGet dc CONTRACT_TOKEN_NETWORK_REGISTRY ∧
    ctx'.deployed_contracts =
      apply_register_flags ctx.deployed_contracts ctx.token_type ta ra := by
  refine ⟨?_, ?_, rfl, ?_, ?_, ?_⟩
  · cases ra with
    | none => exact dictGet_dictSet_self dc tt a
    | some b' =>
      show dictGet (dictSet (dictSet dc tt a)
        CONTRACT_TOKEN_NETWORK_REGISTRY b') tt = some a
      rw [dictGet_dictSet_ne _ _ _ _ htt]
      exact dictGet_dictSet_self dc tt a
  · cases ta with
    | none =>
      exact dictGet_dictSet_self dc CONTRACT_TOKEN_NETWORK_REGISTRY b
    | some a' =>
      exact dictGet_dictSet_self (dictSet dc tt a')
        CONTRACT_TOKEN_NETWORK_REGISTRY b
  · cases ra with
    | none => rfl
    | some b' =>
      show dictGet (dictSet dc CONTRACT_TOKEN_NETWORK_REGISTRY b') tt =
        dictGet dc tt
      exact dictGet_dictSet_ne _ _ _ _ htt
  · cases ta with
    | none => rfl
    | some a' =>
      show dictGet (dictSet dc tt a') CONTRACT_TOKEN_NETWORK_REGISTRY =
        dictGet dc CONTRACT_TOKEN_NETWORK_REGISTRY
      exact dictGet_dictSet_ne _ _ _ _ (Ne.symm htt)
  · unfold register_command at hrun
    dsimp only at hrun
    split at hrun
    · simp at hrun
    rename_i registry hg1
    split at hrun
    · simp at hrun
    rename_i token hg2
    split at hrun
    · rename_i v t hreg
      simp only [Prod.mk.injEq, Except.ok.injEq] at hrun
      rw [← hrun.1]
    · simp at hrun

/-- The context a `register` run starts from in the witness: both addresses
already present. -/
def ctxRegTest : CtxObj :=
  { deployer := deployerTest
    deployed_contracts :=
      [("CustomToken", "a15"), ("TokenNetworkRegistry", "a24")]
    token_type := "CustomToken"
    wait := 1 }

/-- The context the witness `register` run produces: the token flag value has
overwritten the token entry. -/
def ctxRegResult : CtxObj :=
  { deployer := deployerTest
    deployed_contracts :=
      [("CustomToken", "X"), ("TokenNetworkRegistry", "a24")]
    token_type := "CustomToken"
    wait := 1 }

/-- Witness for C10: a concrete successful `register` run whose token flag
overwrites the deployed token address. -/
theorem C10_witness :
    ("CustomToken" : String) ≠ CONTRACT_TOKEN_NETWORK_REGISTRY ∧
    register_command w3Test ctxRegTest (some "X") none =
      (.ok ctxRegResult,
       [Event.callTransact "a24" "createERC20TokenNetwork" [.s "X"] 42,
        Event.waitReceipt 42 1]) ∧
    (dictGet (apply_register_flags [("K", "V")] "CustomToken" (some "A")
        none) "CustomToken" = some "A" ∧
      dictGet (apply_register_flags [("K", "V")] "CustomToken" (some "X")
        (some "B")) CONTRACT_TOKEN_NETWORK_REGISTRY = some "B" ∧
      apply_register_flags [("K", "V")] "CustomToken" none none =
        [("K", "V")] ∧
      dictGet (apply_register_flags [("K", "V")] "CustomToken" none none)
        "CustomToken" = dictGet [("K", "V")] "CustomToken" ∧
      dictGet (apply_register_flags [("K", "V")] "CustomToken" (some "X")
          none) CONTRACT_TOKEN_NETWORK_REGISTRY =
        dictGet [("K", "V")] CONTRACT_TOKEN_NETWORK_REGISTRY ∧
      ctxRegResult.deployed_contracts =
        apply_register_flags ctxRegTest.deployed_contracts
          ctxRegTest.token_type (some "X") none) :=
  ⟨by decide, rfl,
    C10_register_flag_precedence [("K", "V")] "CustomToken" "A" "B"
      (some "X") none w3Test ctxRegTest ctxRegResult
      [Event.callTransact "a24" "createERC20TokenNetwork" [.s "X"] 42,
       Event.waitReceipt 42 1] (by decide) rfl⟩

end RaidenDeploy
